import Mathlib

/-!
Verification of the CoCoRaHS submission pipeline (src/cocorahs_backend.py).

The Python module drives a browser through a third-party HTML form:
login, navigation to the report form, field mapping and fill, submission,
all sequenced by a Flask endpoint that short-circuits on stage failure and
releases the browser in a finally block.  This file gives a shallow
embedding of that pipeline: page state and element lookup become explicit
environments, each stage becomes a Lean function translated from its
Python counterpart, and the properties of the specification are proved
about those functions.
-/

namespace CocorahsBackend

/-! ## Python string primitives used by the backend -/

/-- Characters removed by Python str.strip with no argument. -/
def isPySpace (c : Char) : Bool :=
  c = ' ' || c = '\t' || c = '\n' || c = '\r' || c = '\x0b' || c = '\x0c'

/-- Python str.strip with no argument: drop leading and trailing whitespace. -/
def pyStrip (s : String) : String :=
  String.mk (((s.data.dropWhile isPySpace).reverse.dropWhile isPySpace).reverse)

/-- Prefix test on character lists, used to implement substring containment. -/
def listPrefixOf : List Char → List Char → Bool
  | [], _ => true
  | _ :: _, [] => false
  | a :: as, b :: bs => a == b && listPrefixOf as bs

/-- Does the needle occur as a contiguous run somewhere in the haystack? -/
def listInfixOf (needle : List Char) : List Char → Bool
  | [] => listPrefixOf needle []
  | h :: hs => listPrefixOf needle (h :: hs) || listInfixOf needle hs

/-- Python substring containment, the expression needle in hay. -/
def pyIn (needle hay : String) : Bool :=
  listInfixOf needle.data hay.data

/-- Python str.lower restricted to ASCII, which covers the URLs compared here. -/
def pyLower (s : String) : String :=
  String.mk (s.data.map Char.toLower)

/-- Python str.zfill for the nonnegative numeric strings produced by str(n):
left-pad with zero digits up to the requested width. -/
def zfill (width : Nat) (s : String) : String :=
  if width ≤ s.length then s else String.mk (List.replicate (width - s.length) '0') ++ s

/-- The truthiness test the fill loop applies to a rendered value, the Python
condition field_value and field_value.strip(). -/
def filledValue (v : String) : Bool :=
  decide (v ≠ "") && decide (pyStrip v ≠ "")

/-! ## Timestamps and the ISO parse

fill_form_fields (line 256) calls the standard library datetime.fromisoformat
on the reportDate string; an invalid string raises ValueError, which the
stage-wide handler turns into a False return.  The parser is modelled here
for the forms YYYY-MM-DD, optionally followed by a one-character separator
and a time HH, HH:MM or HH:MM:SS; fractional seconds and timezone offsets
are not modelled.  Field ranges are validated as the library does. -/

structure Timestamp where
  year : Nat
  month : Nat
  day : Nat
  hour : Nat
  minute : Nat
  second : Nat
deriving DecidableEq

/-- Numeric value of a decimal digit character. -/
def digitVal (c : Char) : Option Nat :=
  if c.isDigit then some (c.toNat - 48) else none

/-- Two-digit decimal number from two characters. -/
def digit2 (a b : Char) : Option Nat :=
  match digitVal a, digitVal b with
  | some x, some y => some (10 * x + y)
  | _, _ => none

def isLeapYear (y : Nat) : Bool :=
  (y % 4 == 0 && y % 100 != 0) || y % 400 == 0

def daysInMonth (y m : Nat) : Nat :=
  if m == 2 then (if isLeapYear y then 29 else 28)
  else if m == 4 || m == 6 || m == 9 || m == 11 then 30
  else 31

/-- Time-of-day part of an ISO string: HH, HH:MM or HH:MM:SS. -/
def parseTimeOfDay : List Char → Option (Nat × Nat × Nat)
  | [h1, h2] =>
    (digit2 h1 h2).map fun h => (h, 0, 0)
  | [h1, h2, ':', m1, m2] =>
    match digit2 h1 h2, digit2 m1 m2 with
    | some h, some m => some (h, m, 0)
    | _, _ => none
  | [h1, h2, ':', m1, m2, ':', s1, s2] =>
    match digit2 h1 h2, digit2 m1 m2, digit2 s1 s2 with
    | some h, some m, some s => some (h, m, s)
    | _, _, _ => none
  | _ => none

/-- Model of Python datetime.fromisoformat on the basic forms described above;
none models the ValueError raised on an invalid string. -/
def fromisoformat (s : String) : Option Timestamp :=
  match s.data with
  | y1 :: y2 :: y3 :: y4 :: '-' :: m1 :: m2 :: '-' :: d1 :: d2 :: rest =>
    match digitVal y1, digitVal y2, digitVal y3, digitVal y4, digit2 m1 m2, digit2 d1 d2 with
    | some a, some b, some c, some d, some mo, some da =>
      let y := 1000 * a + 100 * b + 10 * c + d
      let timePart : Option (Nat × Nat × Nat) :=
        match rest with
        | [] => some (0, 0, 0)
        | _sep :: timeChars => parseTimeOfDay timeChars
      match timePart with
      | none => none
      | some (h, mi, se) =>
        if 1 ≤ y && 1 ≤ mo && mo ≤ 12 && 1 ≤ da && da ≤ daysInMonth y mo
            && h ≤ 23 && mi ≤ 59 && se ≤ 59 then
          some ⟨y, mo, da, h, mi, se⟩
        else none
    | _, _, _, _, _, _ => none
  | _ => none

/-! ## The report record and the field mapping (fill_form_fields, lines 256 to 272)

The JSON payload is modelled by the string rendering of each attribute:
form_data.get(key, empty) followed by str gives the stored string when the
key is present and the empty string otherwise, so an attribute is an
optional string.  reportDate is optional at the endpoint boundary (the key
may be missing); inside the fill stage it is read unconditionally. -/

structure FormData where
  reportDate : Option String
  gaugeCatch : Option String
  snowfallAmount : Option String
  snowfallSWE : Option String
  snowpackDepth : Option String
  snowpackSWE : Option String
  additionalNotes : Option String

/-- The date string assembled at line 265: month and day through str(n).zfill(2),
the year through plain str(n). -/
def dateStr (dt : Timestamp) : String :=
  zfill 2 (toString dt.month) ++ "/" ++ zfill 2 (toString dt.day) ++ "/" ++ toString dt.year

/-- The time string assembled at line 266. -/
def timeStr (dt : Timestamp) : String :=
  zfill 2 (toString dt.hour) ++ ":" ++ zfill 2 (toString dt.minute)

structure MappingEntry where
  fieldName : String
  fieldId : String
  value : String
deriving DecidableEq

/-- The fields_to_fill dictionary of lines 264 to 272, in insertion order. -/
def fields_to_fill (dt : Timestamp) (fd : FormData) : List MappingEntry :=
  [⟨"date", "frmReport_dcObsDate_di", dateStr dt⟩,
   ⟨"time", "frmReport_tObsTime_txtTime", timeStr dt⟩,
   ⟨"gaugeCatch", "frmReport_prTotalPrecip__ctl1_tbPrecip", fd.gaugeCatch.getD ""⟩,
   ⟨"snowfallAmount", "frmReport_prNewSnowAmount__ctl1_tbPrecip", fd.snowfallAmount.getD ""⟩,
   ⟨"snowfallSWE", "frmReport_prSnowCore__ctl1_tbPrecip", fd.snowfallSWE.getD ""⟩,
   ⟨"snowpackDepth", "frmReport_prTotalSnowDepth__ctl1_tbPrecip", fd.snowpackDepth.getD ""⟩,
   ⟨"snowpackSWE", "frmReport_prSWE__ctl1_tbPrecip", fd.snowpackSWE.getD ""⟩]

/-! ## The fill stage (fill_form_fields, lines 231 to 302)

The browser is abstracted to what the stage observes of it: whether the
element with a given identifier can be found, and whether clearing and
writing it succeeds.  Either failure is caught by the per-field handler
and the field is skipped.  The stage returns its Python boolean together
with the list of field names actually written, which the code reports
through its log. -/

structure FillEnv where
  findById : String → Bool
  writeOk : String → Bool

/-- The per-field loop of lines 275 to 283: skip values that fail the
truthiness test, try to locate and write the rest, and skip any field whose
lookup or write fails. -/
def fillLoop (env : FillEnv) : List MappingEntry → List String
  | [] => []
  | e :: rest =>
    if filledValue e.value then
      if env.findById e.fieldId then
        if env.writeOk e.fieldId then e.fieldName :: fillLoop env rest
        else fillLoop env rest
      else fillLoop env rest
    else fillLoop env rest

/-- fill_form_fields: parse the report date (a failed parse raises and the
stage-wide handler returns False), build the mapping, run the best-effort
loop, then fill the notes field when additionalNotes is truthy.  Returns the
stage boolean and the names of the fields written. -/
def fill_form_fields (env : FillEnv) (fd : FormData) : Bool × List String :=
  match fromisoformat (fd.reportDate.getD "") with
  | none => (false, [])
  | some dt =>
    let filled := fillLoop env (fields_to_fill dt fd)
    let withNotes :=
      if fd.additionalNotes.getD "" ≠ "" then
        if env.findById "frmReport_txtNotes" then
          if env.writeOk "frmReport_txtNotes" then filled ++ ["additionalNotes"]
          else filled
        else filled
      else filled
    (true, withNotes)

/-! ## The element locator (login_to_cocorahs, lines 82 to 156)

A locator strategy is a Selenium (By, value) pair; the page is abstracted
to a partial map from strategies to element handles (none models the
NoSuchElementException caught by the loop).  The loop tries the strategies
in order and breaks at the first hit; the trace of strategies actually
tried is returned alongside the result. -/

inductive By where
  | name | id | css | tagName | className
deriving DecidableEq

abbrev Selector := By × String

/-- The for-selector-in-selectors loop with its try, break and continue:
returns the first match and the list of strategies tried, in order. -/
def find_element_first {α : Type} (find : Selector → Option α) :
    List Selector → Option α × List Selector
  | [] => (none, [])
  | s :: rest =>
    match find s with
    | some e => (some e, [s])
    | none =>
      let r := find_element_first find rest
      (r.1, s :: r.2)

/-- The username strategy list of lines 87 to 94. -/
def username_selectors : List Selector :=
  [(By.name, "UserName"), (By.name, "username"), (By.id, "UserName"),
   (By.id, "username"), (By.name, "txtUserName"), (By.id, "txtUserName")]

/-- The password strategy list of lines 114 to 121. -/
def password_selectors : List Selector :=
  [(By.name, "Password"), (By.name, "password"), (By.id, "Password"),
   (By.id, "password"), (By.name, "txtPassword"), (By.id, "txtPassword")]

/-- The login-button strategy list of lines 140 to 144. -/
def login_button_selectors : List Selector :=
  [(By.name, "btnLogin"), (By.id, "btnLogin"), (By.css, "button[type=\x27submit\x27]")]

/-- Username lookup: the strategy list, then the generic text-input fallback
of line 107. -/
def username_lookup (find : Selector → Option Nat) : Option Nat :=
  match (find_element_first find username_selectors).1 with
  | some e => some e
  | none => find (By.css, "input[type=\x27text\x27]")

/-- Password lookup: the strategy list, then the generic password-input
fallback of line 133. -/
def password_lookup (find : Selector → Option Nat) : Option Nat :=
  match (find_element_first find password_selectors).1 with
  | some e => some e
  | none => find (By.css, "input[type=\x27password\x27]")

/-! ## The authentication stage (login_to_cocorahs, lines 52 to 187)

The page after the login click is abstracted to its title and URL; filling
the fields and clicking are assumed not to raise (their failures would fall
into the stage-wide handler, which also returns False). -/

structure LoginEnv where
  find : Selector → Option Nat
  title : String
  currentUrl : String

/-- Whether the post-click page still indicates the login page, the
condition of line 175. -/
def still_on_login_page (title currentUrl : String) : Bool :=
  pyIn "Login" title || pyIn "login" (pyLower currentUrl)

/-- login_to_cocorahs: locate the username, password and login-button
elements through their fallback chains, failing if any is absent, then fill,
click and classify by the post-click title and URL. -/
def login_to_cocorahs (env : LoginEnv) : Bool :=
  match username_lookup env.find with
  | none => false
  | some _ =>
    match password_lookup env.find with
    | none => false
    | some _ =>
      match (find_element_first env.find login_button_selectors).1 with
      | none => false
      | some _ =>
        if still_on_login_page env.title env.currentUrl then false else true

/-! ## The submission stage classifier (submit_form, lines 348 to 381)

After the submit click the page is abstracted to the list of elements of
class successmessage, the current URL and the list of elements of class
errormessage; a Python find_elements result is truthy when nonempty. -/

structure SubmitPageState where
  successElems : List String
  currentUrl : String
  errorElems : List String

/-- The post-click classification of lines 356 to 381, in source order:
success elements present, then redirect away from DailyPrecipReport, then
error elements present, then the success default. -/
def classify_submission (p : SubmitPageState) : Bool :=
  if p.successElems ≠ [] then true
  else if ¬ pyIn "DailyPrecipReport" p.currentUrl then true
  else if p.errorElems ≠ [] then false
  else true

/-! ## The orchestrator (submit_cocorahs, lines 390 to 460)

Each remaining stage is abstracted to its outcome: the boolean it returns,
or an exception escaping it (every stage has its own broad handler, but the
try-finally of the endpoint protects against any raise all the same).  The
fill stage is the function above, driven by the request payload.  The
endpoint records which stages ran, whether the driver was created and
whether it was quit. -/

structure Response where
  success : Bool
  message : String
  status : Nat
deriving DecidableEq

inductive StageOut where
  | ok : Bool → StageOut
  | exn : String → StageOut
deriving DecidableEq

inductive StageName where
  | login | navigate | selectStation | fill | submit
deriving DecidableEq

inductive InnerResult where
  | resp : Response → InnerResult
  | raised : String → InnerResult
deriving DecidableEq

def COCORAHS_STATION : String := "VT-CL-14"

/-- select_station (lines 225 to 228): the station is locked to the login,
so the function only logs and returns True. -/
def select_station : Bool := true

structure PipelineEnv where
  loginR : StageOut
  navR : StageOut
  fillEnv : FillEnv
  submitR : StageOut

/-- The guarded stage sequence inside the inner try of lines 409 to 449:
each stage runs only after the previous one returned True, the first False
produces the corresponding failure response, and an exception escapes to
the outer handler.  Also returns the stages that started, in order. -/
def runPipeline (env : PipelineEnv) (fd : FormData) : InnerResult × List StageName :=
  match env.loginR with
  | .exn m => (.raised m, [.login])
  | .ok false =>
    (.resp ⟨false, "Failed to log in to CoCoRaHS", 401⟩, [.login])
  | .ok true =>
    match env.navR with
    | .exn m => (.raised m, [.login, .navigate])
    | .ok false =>
      (.resp ⟨false, "Failed to navigate to precipitation report form", 400⟩,
       [.login, .navigate])
    | .ok true =>
      if select_station = false then
        (.resp ⟨false, "Failed to select station " ++ COCORAHS_STATION, 400⟩,
         [.login, .navigate, .selectStation])
      else if (fill_form_fields env.fillEnv fd).1 = false then
        (.resp ⟨false, "Failed to fill form fields", 400⟩,
         [.login, .navigate, .selectStation, .fill])
      else
        match env.submitR with
        | .exn m => (.raised m, [.login, .navigate, .selectStation, .fill, .submit])
        | .ok false =>
          (.resp ⟨false, "Failed to submit form to CoCoRaHS", 400⟩,
           [.login, .navigate, .selectStation, .fill, .submit])
        | .ok true =>
          (.resp ⟨true, "Report successfully submitted to CoCoRaHS for station VT-CL-14", 200⟩,
           [.login, .navigate, .selectStation, .fill, .submit])

/-- Outcome of setup_driver (lines 35 to 49): a driver, or a raise that the
endpoint's outer handler turns into a 500 response. -/
inductive SetupOut where
  | ok : SetupOut
  | exn : String → SetupOut
deriving DecidableEq

structure RunResult where
  response : Response
  driverCreated : Bool
  driverQuit : Bool
  stagesRun : List StageName
deriving DecidableEq

/-- The submit_cocorahs endpoint: validate that reportDate is truthy, create
the driver, run the pipeline, quit the driver in the finally block on every
path through the inner try, and map an escaped exception to a 500 response. -/
def submit_cocorahs (fd : FormData) (setup : SetupOut) (env : PipelineEnv) : RunResult :=
  if fd.reportDate.getD "" = "" then
    ⟨⟨false, "Report date is required", 400⟩, false, false, []⟩
  else
    match setup with
    | .exn m => ⟨⟨false, "Server error: " ++ m, 500⟩, false, false, []⟩
    | .ok =>
      match runPipeline env fd with
      | (.resp r, st) => ⟨r, true, true, st⟩
      | (.raised m, st) => ⟨⟨false, "Server error: " ++ m, 500⟩, true, true, st⟩

/-! ## Helper lemmas -/

theorem data_append (a b : String) : (a ++ b).data = a.data ++ b.data := rfl

theorem pyStrip_ne_empty {s : String} {c : Char} (hc : c ∈ s.data)
    (hns : isPySpace c = false) : pyStrip s ≠ "" := by
  intro h
  have hdata : ((s.data.dropWhile isPySpace).reverse.dropWhile isPySpace).reverse = [] :=
    congrArg String.data h
  rw [List.reverse_eq_nil_iff, List.dropWhile_eq_nil_iff] at hdata
  have h1 : c ∈ s.data.dropWhile isPySpace := by
    have hsplit := List.takeWhile_append_dropWhile isPySpace s.data
    rcases List.mem_append.mp (by rw [hsplit]; exact hc) with h2 | h2
    · exact absurd (List.mem_takeWhile_imp h2) (by simp [hns])
    · exact h2
  have := hdata c (List.mem_reverse.mpr h1)
  simp [hns] at this

theorem filledValue_of_mem {v : String} {c : Char} (hc : c ∈ v.data)
    (hns : isPySpace c = false) : filledValue v = true := by
  have h0 : v ≠ "" := by
    intro hv
    subst hv
    simp at hc
  simp [filledValue, h0, pyStrip_ne_empty hc hns]

theorem slash_mem_dateStr (dt : Timestamp) : '/' ∈ (dateStr dt).data := by
  have h : '/' ∈ ("/" : String).data := by decide
  simp only [dateStr, data_append, List.mem_append]
  tauto

theorem colon_mem_timeStr (dt : Timestamp) : ':' ∈ (timeStr dt).data := by
  have h : ':' ∈ (":" : String).data := by decide
  simp only [timeStr, data_append, List.mem_append]
  tauto

theorem filledValue_dateStr (dt : Timestamp) : filledValue (dateStr dt) = true :=
  filledValue_of_mem (slash_mem_dateStr dt) (by decide)

theorem filledValue_timeStr (dt : Timestamp) : filledValue (timeStr dt) = true :=
  filledValue_of_mem (colon_mem_timeStr dt) (by decide)

theorem filledValue_empty : filledValue "" = false := by decide

theorem fillLoop_eq_filter (env : FillEnv) (l : List MappingEntry) :
    fillLoop env l =
      (l.filter fun e =>
        filledValue e.value && env.findById e.fieldId && env.writeOk e.fieldId).map
        MappingEntry.fieldName := by
  induction l with
  | nil => rfl
  | cons e rest ih =>
    cases h1 : filledValue e.value <;> cases h2 : env.findById e.fieldId <;>
      cases h3 : env.writeOk e.fieldId <;>
        simp [fillLoop, List.filter_cons, h1, h2, h3, ih]

/-! ## Claim theorems -/

/-- C1: the Submission Stage classifies every post-click page state by the
fixed priority order — success-message element present gives success, else a
URL away from the form path gives success, else an error-message element
gives failure, else success by default; in particular a page with both a
success element and an error element classifies as success. -/
theorem claim_C1 (p : SubmitPageState) :
    (classify_submission p = false ↔
      p.successElems = [] ∧ pyIn "DailyPrecipReport" p.currentUrl = true ∧
        p.errorElems ≠ []) ∧
    (p.successElems ≠ [] → p.errorElems ≠ [] → classify_submission p = true) := by
  constructor
  · unfold classify_submission
    split_ifs with h1 h2 h3 <;> simp_all
  · intro h1 _
    simp [classify_submission, h1]

/-- Witness for C1 at a concrete page state carrying both a success-message
element and an error-message element. -/
theorem claim_C1_witness :
    classify_submission ⟨["saved"], "x/DailyPrecipReport.aspx", ["bad value"]⟩ = true :=
  (claim_C1 ⟨["saved"], "x/DailyPrecipReport.aspx", ["bad value"]⟩).2
    (by decide) (by decide)

/-- C7: element lookup tries the ordered strategies in list order and stops
at the first strategy whose target is live; if the first target is absent
and the second is present, the second match is returned, and the trace shows
no later strategy is tried after a match. -/
theorem claim_C7 {α : Type} (find : Selector → Option α) :
    (∀ s rest e, find s = some e →
      find_element_first find (s :: rest) = (some e, [s])) ∧
    (∀ s1 s2 rest e, find s1 = none → find s2 = some e →
      find_element_first find (s1 :: s2 :: rest) = (some e, [s1, s2])) := by
  constructor
  · intro s rest e h
    simp [find_element_first, h]
  · intro s1 s2 rest e h1 h2
    simp [find_element_first, h1, h2]

/-- Witness for C7: a concrete page where the first username strategy has no
target but the second does. -/
theorem claim_C7_witness :
    find_element_first
      (fun s => if s = (By.name, "username") then some 7 else none)
      [(By.name, "UserName"), (By.name, "username"), (By.id, "UserName")] =
      (some 7, [(By.name, "UserName"), (By.name, "username")]) :=
  (claim_C7 (fun s => if s = (By.name, "username") then some 7 else none)).2
    (By.name, "UserName") (By.name, "username") [(By.id, "UserName")] 7
    (by decide) (by decide)

/-- C8: once the login control has been invoked (all three controls were
located), the Authentication Stage returns failure exactly when the page
title still contains Login or the lowercased URL still contains login, and
returns success in every other page state. -/
theorem claim_C8 (env : LoginEnv)
    (hu : username_lookup env.find ≠ none)
    (hp : password_lookup env.find ≠ none)
    (hb : (find_element_first env.find login_button_selectors).1 ≠ none) :
    (login_to_cocorahs env = false ↔
      (pyIn "Login" env.title = true ∨ pyIn "login" (pyLower env.currentUrl) = true)) ∧
    (login_to_cocorahs env = true ↔
      (pyIn "Login" env.title = false ∧ pyIn "login" (pyLower env.currentUrl) = false)) := by
  obtain ⟨u, hu⟩ := Option.ne_none_iff_exists'.mp hu
  obtain ⟨p, hp⟩ := Option.ne_none_iff_exists'.mp hp
  obtain ⟨b, hb⟩ := Option.ne_none_iff_exists'.mp hb
  unfold login_to_cocorahs
  rw [hu, hp, hb]
  unfold still_on_login_page
  cases h1 : pyIn "Login" env.title <;>
    cases h2 : pyIn "login" (pyLower env.currentUrl) <;> simp

/-- Witness for C8 at a concrete page whose controls are all found and whose
post-click state has left the login page. -/
theorem claim_C8_witness :
    login_to_cocorahs
      ⟨fun s => if s = (By.name, "UserName") ∨ s = (By.name, "Password") ∨
          s = (By.name, "btnLogin") then some 1 else none,
        "My Data Entry", "https://www.cocorahs.org/Admin/MyDataEntry"⟩ = true :=
  (claim_C8
      ⟨fun s => if s = (By.name, "UserName") ∨ s = (By.name, "Password") ∨
          s = (By.name, "btnLogin") then some 1 else none,
        "My Data Entry", "https://www.cocorahs.org/Admin/MyDataEntry"⟩
      (by decide) (by decide) (by decide)).2.mpr (by decide)

/-- C4: per-field failures in the fill loop do not abort the stage — the
stage returns failure exactly when the timestamp parse raises before the
mapping is built, and otherwise succeeds with every field whose value is
truthy and whose element could be located and written, independently of the
other fields. -/
theorem claim_C4 (env : FillEnv) (fd : FormData) :
    ((fill_form_fields env fd).1 = false ↔
      fromisoformat (fd.reportDate.getD "") = none) ∧
    (∀ dt, fromisoformat (fd.reportDate.getD "") = some dt →
      (fill_form_fields env fd).2 =
        ((fields_to_fill dt fd).filter fun e =>
            filledValue e.value && env.findById e.fieldId && env.writeOk e.fieldId).map
          MappingEntry.fieldName ++
        (if fd.additionalNotes.getD "" ≠ "" then
          (if env.findById "frmReport_txtNotes" then
            (if env.writeOk "frmReport_txtNotes" then ["additionalNotes"] else [])
          else [])
        else [])) := by
  constructor
  · unfold fill_form_fields
    cases h : fromisoformat (fd.reportDate.getD "") <;> simp
  · intro dt hdt
    unfold fill_form_fields
    rw [hdt]
    simp only [fillLoop_eq_filter]
    split_ifs <;> simp

/-- Witness for C4: a concrete record and page on which the gauge-catch
element is missing yet the stage succeeds, filling date, time and the
snowfall amount. -/
theorem claim_C4_witness :
    (fill_form_fields
        ⟨fun i => i ≠ "frmReport_prTotalPrecip__ctl1_tbPrecip", fun _ => true⟩
        ⟨some "2024-01-05T07:30", some "0.25", some "1.2", none, none, none, none⟩).2 =
      ["date", "time", "snowfallAmount"] := by
  have h :=
    (claim_C4
      ⟨fun i => i ≠ "frmReport_prTotalPrecip__ctl1_tbPrecip", fun _ => true⟩
      ⟨some "2024-01-05T07:30", some "0.25", some "1.2", none, none, none, none⟩).2
      ⟨2024, 1, 5, 7, 30, 0⟩ (by decide)
  rw [h]
  decide

/-- C5: for a report record with a set timestamp and every optional
attribute absent, the field mapping holds exactly two entries whose value
survives the truthiness test — the date entry and the time entry — and every
optional entry renders to the empty string. -/
theorem claim_C5 (dt : Timestamp) (fd : FormData)
    (h1 : fd.gaugeCatch = none) (h2 : fd.snowfallAmount = none)
    (h3 : fd.snowfallSWE = none) (h4 : fd.snowpackDepth = none)
    (h5 : fd.snowpackSWE = none) :
    ((fields_to_fill dt fd).filter fun e => filledValue e.value) =
      [⟨"date", "frmReport_dcObsDate_di", dateStr dt⟩,
       ⟨"time", "frmReport_tObsTime_txtTime", timeStr dt⟩] ∧
    (∀ e ∈ (fields_to_fill dt fd).drop 2, e.value = "") := by
  constructor
  · simp [fields_to_fill, List.filter_cons, filledValue_dateStr dt, filledValue_timeStr dt,
      h1, h2, h3, h4, h5, filledValue_empty]
  · intro e he
    simp [fields_to_fill, h1, h2, h3, h4, h5] at he
    rcases he with rfl | rfl | rfl | rfl | rfl <;> rfl

/-- Witness for C5 at a concrete timestamp and a record with no optional
attributes. -/
theorem claim_C5_witness :
    ((fields_to_fill ⟨2024, 1, 5, 7, 30, 0⟩
        ⟨some "2024-01-05T07:30", none, none, none, none, none, none⟩).filter
      fun e => filledValue e.value) =
      [⟨"date", "frmReport_dcObsDate_di", dateStr ⟨2024, 1, 5, 7, 30, 0⟩⟩,
       ⟨"time", "frmReport_tObsTime_txtTime", timeStr ⟨2024, 1, 5, 7, 30, 0⟩⟩] :=
  (claim_C5 ⟨2024, 1, 5, 7, 30, 0⟩
      ⟨some "2024-01-05T07:30", none, none, none, none, none, none⟩
      rfl rfl rfl rfl rfl).1

/-- C6: the timestamp 2024-01-05T07:30 renders to date string 01/05/2024 and
time string 07:30, and every component value from 1 through 9 is rendered by
the zero-fill to two digits with a leading zero. -/
theorem claim_C6 :
    fromisoformat "2024-01-05T07:30" = some ⟨2024, 1, 5, 7, 30, 0⟩ ∧
    dateStr ⟨2024, 1, 5, 7, 30, 0⟩ = "01/05/2024" ∧
    timeStr ⟨2024, 1, 5, 7, 30, 0⟩ = "07:30" ∧
    (∀ n, 1 ≤ n → n ≤ 9 →
      zfill 2 (toString n) = String.mk ['0'] ++ toString n ∧
        (zfill 2 (toString n)).length = 2) := by
  refine ⟨by decide, by decide, by decide, ?_⟩
  intro n hn1 hn9
  interval_cases n <;> exact ⟨by decide, by decide⟩

/-- Witness for C6 at component value 7. -/
theorem claim_C6_witness :
    zfill 2 (toString 7) = String.mk ['0'] ++ toString 7 ∧
      (zfill 2 (toString 7)).length = 2 :=
  claim_C6.2.2.2 7 (by decide) (by decide)

/-- C2: a stage runs only after every earlier stage reported success — the
first failing stage ends the trace and produces the corresponding failure
response, 401 for authentication and 400 for the later stages — and the
endpoint returns that response to the caller unchanged. -/
theorem claim_C2 (env : PipelineEnv) (fd : FormData) :
    (env.loginR = .ok false →
      runPipeline env fd =
        (.resp ⟨false, "Failed to log in to CoCoRaHS", 401⟩, [.login])) ∧
    (env.loginR = .ok true → env.navR = .ok false →
      runPipeline env fd =
        (.resp ⟨false, "Failed to navigate to precipitation report form", 400⟩,
         [.login, .navigate])) ∧
    (env.loginR = .ok true → env.navR = .ok true →
      (fill_form_fields env.fillEnv fd).1 = false →
      runPipeline env fd =
        (.resp ⟨false, "Failed to fill form fields", 400⟩,
         [.login, .navigate, .selectStation, .fill])) ∧
    (env.loginR = .ok true → env.navR = .ok true →
      (fill_form_fields env.fillEnv fd).1 = true → env.submitR = .ok false →
      runPipeline env fd =
        (.resp ⟨false, "Failed to submit form to CoCoRaHS", 400⟩,
         [.login, .navigate, .selectStation, .fill, .submit])) ∧
    (fd.reportDate.getD "" ≠ "" → ∀ r st, runPipeline env fd = (.resp r, st) →
      submit_cocorahs fd .ok env = ⟨r, true, true, st⟩) := by
  refine ⟨?_, ?_, ?_, ?_, ?_⟩
  · intro h
    simp [runPipeline, h]
  · intro h1 h2
    simp [runPipeline, h1, h2]
  · intro h1 h2 h3
    simp [runPipeline, h1, h2, h3, select_station]
  · intro h1 h2 h3 h4
    simp [runPipeline, h1, h2, h3, h4, select_station]
  · intro hrd r st hrun
    simp [submit_cocorahs, hrd, hrun]

/-- Witness for C2: a run whose navigation stage fails after a successful
login halts with the navigation failure and its trace stops there. -/
theorem claim_C2_witness :
    runPipeline ⟨.ok true, .ok false, ⟨fun _ => true, fun _ => true⟩, .ok true⟩
        ⟨some "2024-01-05T07:30", none, none, none, none, none, none⟩ =
      (.resp ⟨false, "Failed to navigate to precipitation report form", 400⟩,
       [.login, .navigate]) :=
  (claim_C2 ⟨.ok true, .ok false, ⟨fun _ => true, fun _ => true⟩, .ok true⟩
      ⟨some "2024-01-05T07:30", none, none, none, none, none, none⟩).2.1 rfl rfl

/-- C3: whenever the Browser Session is created it is also released — on a
successful run, on any stage returning failure, and on an exception escaping
a stage — and the session is created whenever validation passes and the
driver setup does not raise. -/
theorem claim_C3 (fd : FormData) (setup : SetupOut) (env : PipelineEnv) :
    ((submit_cocorahs fd setup env).driverCreated = true →
      (submit_cocorahs fd setup env).driverQuit = true) ∧
    (fd.reportDate.getD "" ≠ "" → setup = .ok →
      (submit_cocorahs fd setup env).driverCreated = true) := by
  constructor
  · unfold submit_cocorahs
    split_ifs with h
    · simp
    · cases setup with
      | exn m => simp
      | ok =>
        rcases hrun : runPipeline env fd with ⟨ir, st⟩
        cases ir <;> simp [hrun]
  · intro hrd hsetup
    subst hsetup
    unfold submit_cocorahs
    rcases hrun : runPipeline env fd with ⟨ir, st⟩
    cases ir <;> simp [hrd, hrun]

/-- Witness for C3: a run whose submit stage raises an unexpected exception
still creates and releases the session. -/
theorem claim_C3_witness :
    (submit_cocorahs ⟨some "2024-01-05T07:30", none, none, none, none, none, none⟩
        .ok ⟨.ok true, .ok true, ⟨fun _ => true, fun _ => true⟩, .exn "boom"⟩).driverCreated
      = true ∧
    (submit_cocorahs ⟨some "2024-01-05T07:30", none, none, none, none, none, none⟩
        .ok ⟨.ok true, .ok true, ⟨fun _ => true, fun _ => true⟩, .exn "boom"⟩).driverQuit
      = true := by
  have h := claim_C3 ⟨some "2024-01-05T07:30", none, none, none, none, none, none⟩
    .ok ⟨.ok true, .ok true, ⟨fun _ => true, fun _ => true⟩, .exn "boom"⟩
  have hc := h.2 (by decide) rfl
  exact ⟨hc, h.1 hc⟩

/-- C9: the station-selection step returns success unconditionally, so no
run of the endpoint can ever produce the station-selection failure
response. -/
theorem claim_C9 (fd : FormData) (setup : SetupOut) (env : PipelineEnv) :
    select_station = true ∧
    (submit_cocorahs fd setup env).response ≠
      ⟨false, "Failed to select station " ++ COCORAHS_STATION, 400⟩ := by
  refine ⟨rfl, ?_⟩
  rcases env with ⟨loginR, navR, fillEnv, submitR⟩
  unfold submit_cocorahs
  split_ifs with h
  · decide
  · cases setup with
    | exn m => simp [COCORAHS_STATION]
    | ok =>
      rcases loginR with b | m
      · cases b
        · simp [runPipeline, COCORAHS_STATION]
        · rcases navR with b2 | m2
          · cases b2
            · simp [runPipeline, COCORAHS_STATION]
            · rcases hfill : (fill_form_fields fillEnv fd).1 with _ | _
              · simp [runPipeline, select_station, hfill, COCORAHS_STATION]
              · rcases submitR with b3 | m3
                · cases b3 <;> simp [runPipeline, select_station, hfill, COCORAHS_STATION]
                · simp [runPipeline, select_station, hfill, COCORAHS_STATION]
          · simp [runPipeline, COCORAHS_STATION]
      · simp [runPipeline, COCORAHS_STATION]

/-- Witness for C9 at a concrete run that reaches the station-selection
step. -/
theorem claim_C9_witness :
    select_station = true ∧
    (submit_cocorahs ⟨some "2024-01-05T07:30", none, none, none, none, none, none⟩
        .ok ⟨.ok true, .ok true, ⟨fun _ => true, fun _ => true⟩, .ok true⟩).response ≠
      ⟨false, "Failed to select station " ++ COCORAHS_STATION, 400⟩ :=
  claim_C9 ⟨some "2024-01-05T07:30", none, none, none, none, none, none⟩
    .ok ⟨.ok true, .ok true, ⟨fun _ => true, fun _ => true⟩, .ok true⟩

/-- C10: a request whose reportDate is present and non-empty but not a valid
ISO timestamp passes validation, creates the session, runs authentication
and navigation, then fails in the fill stage, and the caller receives the
generic fill-stage bad-request response. -/
theorem claim_C10 (fd : FormData) (env : PipelineEnv) (s : String)
    (hrd : fd.reportDate = some s) (hne : s ≠ "")
    (hbad : fromisoformat s = none)
    (hl : env.loginR = .ok true) (hn : env.navR = .ok true) :
    submit_cocorahs fd .ok env =
      ⟨⟨false, "Failed to fill form fields", 400⟩, true, true,
       [.login, .navigate, .selectStation, .fill]⟩ := by
  have hfill : (fill_form_fields env.fillEnv fd).1 = false := by
    unfold fill_form_fields
    rw [hrd]
    simp [hbad]
  have hrun : runPipeline env fd =
      (.resp ⟨false, "Failed to fill form fields", 400⟩,
       [.login, .navigate, .selectStation, .fill]) := by
    simp [runPipeline, hl, hn, hfill, select_station]
  simp [submit_cocorahs, hrd, hne, hrun]

/-- Witness for C10: the reportDate string not-a-date is non-empty yet fails
the ISO parse, and the run ends with the generic fill-stage response. -/
theorem claim_C10_witness :
    submit_cocorahs ⟨some "not-a-date", none, none, none, none, none, none⟩
        .ok ⟨.ok true, .ok true, ⟨fun _ => true, fun _ => true⟩, .ok true⟩ =
      ⟨⟨false, "Failed to fill form fields", 400⟩, true, true,
       [.login, .navigate, .selectStation, .fill]⟩ :=
  claim_C10 ⟨some "not-a-date", none, none, none, none, none, none⟩
    ⟨.ok true, .ok true, ⟨fun _ => true, fun _ => true⟩, .ok true⟩
    "not-a-date" rfl (by decide) (by decide) rfl rfl

end CocorahsBackend
